import Mathlib

/-
Verification of the vulnerability-processing and audit-scoring pipeline of a
smart-contract auditing backend.  The development shallowly embeds:

  * the static-analysis adapter (`SlitherAnalyzer`): severity mapping, parsing
    of the external analyzer's output, domain-specific textual checks, and the
    outcome classification of the external subprocess invocation;
  * the LLM enrichment pipeline (`LLMProcessor`): the four sequential stages
    explain → fix → test → compile, with the external model abstracted as an
    oracle and the number of issued model calls made explicit;
  * the API-layer scoring steps (`MainApi`): the /analyze handler's scoring,
    its enrichment fallback, and the background audit-processing scoring.

Machine integers are modelled as `Int`; Python dictionaries with optional keys
become structures with `Option` fields; the external world (subprocess and
model endpoint) is passed in explicitly as data, so every embedded function is
total by construction — which is how "never raises" statements are read.
-/

set_option autoImplicit false

/-- Python `pat in s` restricted to what the code needs: `listPrefixEq p l`
says the char list `p` is an initial segment of `l`. -/
def listPrefixEq : List Char → List Char → Bool
  | [], _ => true
  | _ :: _, [] => false
  | a :: as, b :: bs => a = b && listPrefixEq as bs

/-- `listContainsSub p l` : some suffix of `l` starts with `p`
(substring containment on character lists). -/
def listContainsSub (pat : List Char) : List Char → Bool
  | [] => pat.isEmpty
  | c :: rest => listPrefixEq pat (c :: rest) || listContainsSub pat rest

/-- Python's `pat in s` substring test. -/
def strContains (s pat : String) : Bool :=
  listContainsSub pat.toList s.toList

/-- Python's `len(s.splitlines())` for `\n`-delimited text: the number of
newline characters, plus one more for a trailing fragment not ended by a
newline; the empty string has zero lines. -/
def splitlinesCount (s : String) : Nat :=
  let cs := s.toList
  let nl := cs.countP (fun c => c = '\n')
  if cs.isEmpty then 0
  else nl + (if cs.getLast? = some '\n' then 0 else 1)

/-- ASCII lowercase of one character (Python `str.lower` on the ASCII range,
which covers every label the code produces). -/
def lowerChar (c : Char) : Char :=
  if 65 ≤ c.toNat ∧ c.toNat ≤ 90 then Char.ofNat (c.toNat + 32) else c

/-- Python's `s.lower()` on ASCII text, character by character. -/
def strToLower (s : String) : String :=
  String.mk (s.toList.map lowerChar)

/-- A normalized vulnerability record as produced by the adapter
(`location` is flattened into the three `location_*` fields; domain-check
findings carry no `code_snippet` key, hence the `Option`). -/
structure Vuln where
  id : String
  title : String
  description : String
  severity : String
  severity_level_value : Int
  location_line : Int
  location_column : Option Int
  location_function : Option String
  code_snippet : Option String
  cwe : List String
deriving DecidableEq

namespace SlitherAnalyzer

/-- `_severity_to_value`: dictionary lookup with default 0
(`{"High": 3, "Medium": 2, "Low": 1, "Informational": 0}.get(severity, 0)`). -/
def severity_to_value (severity : String) : Int :=
  if severity = "High" then 3
  else if severity = "Medium" then 2
  else if severity = "Low" then 1
  else if severity = "Informational" then 0
  else 0

/-- One element of a detector's `elements` list, keeping the two keys the
parser reads: `name` and `source_mapping.start`. -/
structure RawElement where
  name : Option String
  source_mapping_start : Option Int
deriving DecidableEq

/-- One entry of the analyzer's `detectors` list, keeping the keys the parser
reads (each absent key is `none`, matching `dict.get` defaults). -/
structure RawDetector where
  check : Option String
  description : Option String
  impact : Option String
  elements : List RawElement
  cwe : List String
deriving DecidableEq

/-- The parsed JSON payload handed to `_parse_slither_output`:
`success_and_results` records whether both the `success` and `results` keys
are present (the mock format); `results_detectors` is `results.detectors`
(empty when absent) and `top_detectors` the top-level `detectors` key;
`metrics_*` are `metrics.complexity` / `metrics.nLines` when present. -/
structure RawSlitherData where
  success_and_results : Bool
  results_detectors : List RawDetector
  top_detectors : List RawDetector
  metrics_complexity : Option Int
  metrics_nLines : Option Int
deriving DecidableEq

/-- The payload `_run_slither` returns when the subprocess exits without
output but with a success code: `{"success": True, "results": {"detectors": []}}`. -/
def mock_empty_data : RawSlitherData :=
  { success_and_results := true
    results_detectors := []
    top_detectors := []
    metrics_complexity := none
    metrics_nLines := none }

/-- Classification of one invocation of the external analyzer subprocess,
covering every branch of `_run_slither`. -/
inductive SlitherOutcome where
  | toolMissing
  | timeout
  | exitErrorNoOutput
  | badJson
  | emptyOutput
  | parsed (data : RawSlitherData)
deriving DecidableEq

/-- `_run_slither`: `none` on every failure branch (command not found /
`FileNotFoundError`, timeout, non-zero exit with empty stdout, JSON decode
error); the mock payload on empty stdout with success exit; the parsed JSON
otherwise. -/
def run_slither : SlitherOutcome → Option RawSlitherData
  | .toolMissing => none
  | .timeout => none
  | .exitErrorNoOutput => none
  | .badJson => none
  | .emptyOutput => some mock_empty_data
  | .parsed data => some data

/-- The loop body of `_parse_slither_output`: builds the vulnerability for the
detector at position `idx` (zero-based), with id `VULN-<idx+1>`. -/
def detector_to_vuln (idx : Nat) (d : RawDetector) : Vuln :=
  let impact := d.impact.getD ("Medium")
  let firstElement := d.elements.head?
  { id := ("VULN-") ++ toString (idx + 1)
    title := d.check.getD ("Unknown")
    description := d.description.getD ("No description")
    severity := strToLower impact
    severity_level_value := severity_to_value impact
    location_line :=
      match firstElement with
      | some e => e.source_mapping_start.getD 0
      | none => 0
    location_column := none
    location_function :=
      match firstElement with
      | some e => e.name
      | none => none
    code_snippet :=
      match firstElement with
      | some e => some (("// In ") ++ e.name.getD ("unknown") ++ ("\n// Vulnerable code here"))
      | none => some ("")
    cwe := d.cwe }

/-- The detector loop of `_parse_slither_output`, carried out with the running
count of already-built vulnerabilities (which determines each id). -/
def build_vulns : Nat → List RawDetector → List Vuln
  | _, [] => []
  | n, d :: rest => detector_to_vuln n d :: build_vulns (n + 1) rest

/-- The `contract_metrics` sub-dictionary of an analysis result. -/
structure ContractMetrics where
  complexity : Int
  loc : Int
deriving DecidableEq

/-- The dictionary returned by the adapter:
`{"vulnerabilities": [...], "contract_metrics": {...}}`. -/
structure AnalysisResult where
  vulnerabilities : List Vuln
  contract_metrics : ContractMetrics
deriving DecidableEq

/-- `_parse_slither_output`: selects the detector list by format, normalizes
each detector, and takes metrics from `metrics.complexity` / `metrics.nLines`
with defaults 5 and 25. -/
def parse_slither_output (raw : RawSlitherData) : AnalysisResult :=
  let detectors :=
    if raw.success_and_results then raw.results_detectors else raw.top_detectors
  { vulnerabilities := build_vulns 0 detectors
    contract_metrics :=
      { complexity := raw.metrics_complexity.getD 5
        loc := raw.metrics_nLines.getD 25 } }

/-- The fixed HED-001 finding (missing token association). -/
def hed001 : Vuln :=
  { id := "HED-001"
    title := "Missing Token Association"
    description := "Contract doesn't implement token association logic which is required for HTS tokens"
    severity := "medium"
    severity_level_value := 2
    location_line := 0
    location_column := none
    location_function := none
    code_snippet := none
    cwe := ["CWE-362"] }

/-- The fixed HED-002 finding (unsafe HBAR handling). -/
def hed002 : Vuln :=
  { id := "HED-002"
    title := "Unsafe HBAR Handling"
    description := "Payable function without HBAR amount validation could lead to unexpected behavior"
    severity := "high"
    severity_level_value := 3
    location_line := 0
    location_column := none
    location_function := none
    code_snippet := none
    cwe := ["CWE-840"] }

/-- The fixed HED-003 finding (improper timestamp usage). -/
def hed003 : Vuln :=
  { id := "HED-003"
    title := "Improper Timestamp Usage"
    description := "Using block.timestamp instead of Hedera's ConsensusTimestamp may lead to inconsistencies"
    severity := "medium"
    severity_level_value := 2
    location_line := 0
    location_column := none
    location_function := none
    code_snippet := none
    cwe := ["CWE-829"] }

/-- `_check_hedera_specific`: three independent substring checks on the raw
source text, each appending its fixed finding when it fires. -/
def check_hedera_specific (contract_code : String) : List Vuln :=
  (if !strContains contract_code ("associateToken")
      && !strContains contract_code ("TokenAssociate")
   then [hed001] else [])
  ++ (if strContains contract_code ("payable")
      && !strContains contract_code ("require(msg.value")
   then [hed002] else [])
  ++ (if strContains contract_code ("block.timestamp")
      && !strContains contract_code ("ConsensusTimestamp")
   then [hed003] else [])

/-- `analyze_contract`: on a `None` result from `_run_slither` it returns the
domain-check findings with default complexity and a locally counted `loc`;
otherwise it parses the payload and appends the domain-check findings.
The subprocess outcome is passed in as data, so the function is total: the
embedded fragment has no raising operation (the Python source additionally
wraps everything in a catch-all handler). -/
def analyze_contract (contract_code : String) (o : SlitherOutcome) : AnalysisResult :=
  match run_slither o with
  | none =>
      { vulnerabilities := check_hedera_specific contract_code
        contract_metrics :=
          { complexity := 5
            loc := (splitlinesCount contract_code : Int) } }
  | some raw =>
      let result := parse_slither_output raw
      { result with
          vulnerabilities := result.vulnerabilities ++ check_hedera_specific contract_code }

end SlitherAnalyzer

namespace LLMProcessor

/-- One `{id, text}` pair collected by a stage of the enrichment workflow
(the Python code names the text field `explanation` / `fixed_code` /
`test_case` depending on the stage; only the id is ever inspected). -/
structure IdText where
  id : String
  text : String
deriving DecidableEq

/-- A vulnerability after `_compile_results`: all original fields plus the
three looked-up enrichment fields (absent lookups yield `none`, i.e. null). -/
structure EnhancedVuln where
  base : Vuln
  explanation : Option String
  fixed_code : Option String
  test_case : Option String
deriving DecidableEq

/-- The workflow state dictionary, extended with `model_calls`, an explicit
count of the external model invocations issued so far (instrumentation of
`self.client.chat.completions.create`, which the embedding abstracts into
the per-stage oracles). -/
structure PState where
  vulnerabilities : List Vuln
  contract_code : String
  explanations : List IdText
  fixes : List IdText
  test_cases : List IdText
  processed_results : List EnhancedVuln
  model_calls : Nat
deriving DecidableEq

/-- `_generate_explanations`: one model call per vulnerability, collecting
`{id, explanation}` pairs.  The oracle `llm` stands for the chat-completion
endpoint applied to the stage's prompt built from the vulnerability. -/
def generate_explanations (llm : Vuln → String) (state : PState) : PState :=
  { state with
      explanations := state.vulnerabilities.map (fun v => ⟨v.id, llm v⟩)
      model_calls := state.model_calls + state.vulnerabilities.length }

/-- `_generate_fixes`: one model call per vulnerability, collecting
`{id, fixed_code}` pairs. -/
def generate_fixes (llm : Vuln → String) (state : PState) : PState :=
  { state with
      fixes := state.vulnerabilities.map (fun v => ⟨v.id, llm v⟩)
      model_calls := state.model_calls + state.vulnerabilities.length }

/-- `_generate_test_cases`: one model call per vulnerability, collecting
`{id, test_case}` pairs. -/
def generate_test_cases (llm : Vuln → String) (state : PState) : PState :=
  { state with
      test_cases := state.vulnerabilities.map (fun v => ⟨v.id, llm v⟩)
      model_calls := state.model_calls + state.vulnerabilities.length }

/-- The loop of `_compile_results`: for each original vulnerability, the first
entry of each side list with a matching id is looked up (`next(..., None)`)
and merged with the original fields. -/
def compile_results (vulns : List Vuln) (es fs ts : List IdText) : List EnhancedVuln :=
  vulns.map (fun v =>
    { base := v
      explanation := (es.find? (fun e => e.id = v.id)).map IdText.text
      fixed_code := (fs.find? (fun f => f.id = v.id)).map IdText.text
      test_case := (ts.find? (fun t => t.id = v.id)).map IdText.text })

/-- `_compile_results` as a workflow node: stores the compiled list in
`processed_results` and issues no model call. -/
def compile_step (state : PState) : PState :=
  { state with
      processed_results :=
        compile_results state.vulnerabilities state.explanations
          state.fixes state.test_cases }

/-- `process_vulnerabilities`: short-circuits on an empty input before the
workflow is ever invoked, otherwise runs the four stages strictly in sequence
(explain → fix → test → compile) and returns `processed_results`.  The second
component is the total number of model calls issued. -/
def process_vulnerabilities (el fl tl : Vuln → String)
    (vulnerabilities : List Vuln) (contract_code : String) :
    List EnhancedVuln × Nat :=
  if vulnerabilities.isEmpty then ([], 0)
  else
    let initial_state : PState :=
      { vulnerabilities := vulnerabilities
        contract_code := contract_code
        explanations := []
        fixes := []
        test_cases := []
        processed_results := []
        model_calls := 0 }
    let final_state :=
      compile_step (generate_test_cases tl (generate_fixes fl
        (generate_explanations el initial_state)))
    (final_state.processed_results, final_state.model_calls)

end LLMProcessor

namespace MainApi

/-- The only key of a processed vulnerability that the /analyze scoring step
reads; `none` models an absent `severity_level_value` key.  (This path only
ever sees numeric values: the adapter always writes integers.) -/
structure SVuln where
  severity_level_value : Option Int
deriving DecidableEq

/-- The field-defaulting loop of the /analyze handler:
`if "severity_level_value" not in vuln: vuln["severity_level_value"] = 2`. -/
def fill_severity (vs : List SVuln) : List SVuln :=
  vs.map (fun v => { severity_level_value := some (v.severity_level_value.getD 2) })

/-- The /analyze handler's penalty sum:
`sum(max(0, 5 - v.get("severity_level_value", 2)) * 2 for v in ...)`. -/
def total_severity (vs : List SVuln) : Int :=
  (vs.map (fun v => max 0 (5 - v.severity_level_value.getD 2) * 2)).sum

/-- The scored part of the /analyze response. -/
structure ScoreResult where
  vulnerabilities : List SVuln
  audit_score : Int
  passed : Bool
deriving DecidableEq

/-- The scoring tail of the /analyze handler: default-fill the severity
values, compute `audit_score = max(0, min(100, 100 - total_severity))`, and
set `passed = audit_score >= 80`. -/
def analyze_scoring (processed : List SVuln) : ScoreResult :=
  let filled := fill_severity processed
  let audit_score := max 0 (min 100 (100 - total_severity filled))
  { vulnerabilities := filled
    audit_score := audit_score
    passed := decide (80 ≤ audit_score) }

/-- Modelled from the spec: the §4.4 scoring formula exactly as the spec
states it, over a list of integer severity values — used only to compare the
handler's computation against the spec's words. -/
def spec_audit_score (slvs : List Int) : Int :=
  max 0 (min 100 (100 - (slvs.map (fun n => max 0 (5 - n) * 2)).sum))

/-- Steps 2–3 of the /analyze handler: run enrichment only on a non-empty
list, fall back to the raw vulnerability list if enrichment raises (the
`Except` argument is the enrichment outcome), then score. -/
def analyze_handler (vulns : List SVuln)
    (enrichment : Except String (List SVuln)) : ScoreResult :=
  let processed :=
    if vulns.isEmpty then []
    else
      match enrichment with
      | .ok enriched => enriched
      | .error _ => vulns
  analyze_scoring processed

/-- A Python value sitting under the `severity_level_value` key in the
background path: a number (`int`/`float`, modelled as `Int`) or some
non-numeric value such as a string. -/
inductive PyVal where
  | num (n : Int)
  | str (s : String)
deriving DecidableEq

/-- A vulnerability as seen by the background scoring loop: the
`severity_level_value` key may be absent (`none`) or hold any value. -/
structure BVuln where
  severity_level_value : Option PyVal
deriving DecidableEq

/-- One iteration of the background scoring loop of `process_audit_request`:
`severity_value = v.get("severity_level_value", 0)` followed by the
`isinstance(severity_value, (int, float))` guard — a non-numeric value is
skipped (contributes 0), a missing key becomes the number 0. -/
def bg_penalty (v : BVuln) : Int :=
  match v.severity_level_value.getD (.num 0) with
  | .num n => max 0 (5 - n) * 2
  | .str _ => 0

/-- The background path's `total_severity` accumulator. -/
def bg_total_severity (vs : List BVuln) : Int :=
  (vs.map bg_penalty).sum

/-- The background path's `audit_score = max(0, min(100, 100 - total_severity))`. -/
def bg_audit_score (vs : List BVuln) : Int :=
  max 0 (min 100 (100 - bg_total_severity vs))

/-- The background path's `"passed": audit_score >= 80`. -/
def bg_passed (vs : List BVuln) : Bool :=
  decide (80 ≤ bg_audit_score vs)

end MainApi

/-- A raw detector reported by the analyzer with impact `High`, exercising the
analyzer-derived branch of the severity invariant. -/
def high_detector : SlitherAnalyzer.RawDetector :=
  { check := some ("reentrancy-eth")
    description := some ("Reentrancy in withdraw")
    impact := some ("High")
    elements := []
    cwe := [] }

/-- A parsed analyzer payload (mock format) containing just `high_detector`. -/
def high_payload : SlitherAnalyzer.RawSlitherData :=
  { success_and_results := true
    results_detectors := [high_detector]
    top_detectors := []
    metrics_complexity := none
    metrics_nLines := none }

/-- Case analysis helper: `severity_to_value` only ever produces 3, 2, 1 or 0. -/
theorem severity_to_value_cases (s : String) :
    SlitherAnalyzer.severity_to_value s = 3 ∨ SlitherAnalyzer.severity_to_value s = 2 ∨
    SlitherAnalyzer.severity_to_value s = 1 ∨ SlitherAnalyzer.severity_to_value s = 0 := by
  unfold SlitherAnalyzer.severity_to_value
  split
  · exact Or.inl rfl
  split
  · exact Or.inr (Or.inl rfl)
  split
  · exact Or.inr (Or.inr (Or.inl rfl))
  split
  · exact Or.inr (Or.inr (Or.inr rfl))
  · exact Or.inr (Or.inr (Or.inr rfl))

/-- C6: `severity_to_value` maps the four canonical labels to 3, 2, 1, 0 by
case-sensitive exact match, maps every other string to 0, always lands in
`{0,1,2,3}`, and is total (never raises). -/
theorem severity_to_value_spec :
    SlitherAnalyzer.severity_to_value ("High") = 3 ∧
    SlitherAnalyzer.severity_to_value ("Medium") = 2 ∧
    SlitherAnalyzer.severity_to_value ("Low") = 1 ∧
    SlitherAnalyzer.severity_to_value ("Informational") = 0 ∧
    ∀ s : String,
      (s ≠ "High" → s ≠ "Medium" → s ≠ "Low" →
        SlitherAnalyzer.severity_to_value s = 0) ∧
      (0 ≤ SlitherAnalyzer.severity_to_value s ∧
        SlitherAnalyzer.severity_to_value s ≤ 3) := by
  refine ⟨by decide, by decide, by decide, by decide, fun s => ⟨?_, ?_⟩⟩
  · intro h1 h2 h3
    unfold SlitherAnalyzer.severity_to_value
    rw [if_neg h1, if_neg h2, if_neg h3]
    split
    · rfl
    · rfl
  · rcases severity_to_value_cases s with h | h | h | h <;> rw [h] <;> exact ⟨by decide, by decide⟩

/-- Witness for C6 at the unrecognized (lowercase) label `high`. -/
theorem severity_to_value_spec_witness :
    (("high" : String) ≠ "High" ∧ ("high" : String) ≠ "Medium" ∧ ("high" : String) ≠ "Low") ∧
    SlitherAnalyzer.severity_to_value ("high") = 0 :=
  ⟨⟨by decide, by decide, by decide⟩,
    (severity_to_value_spec.2.2.2.2 ("high")).1 (by decide) (by decide) (by decide)⟩

/-- C1 counterexample: in the /analyze handler's scoring step (one of the two
scoring paths the claim covers), a single vulnerability whose
`severity_level_value` key is absent yields audit score 94, not 90: the
handler first default-fills the missing key with 2 (Medium), not 0. -/
theorem missing_severity_analyze_counterexample :
    (MainApi.analyze_scoring [{ severity_level_value := none }]).audit_score ≠ 90 := by
  decide

/-- C1 (amended): the two scoring paths default a missing
`severity_level_value` differently and neither raises.  The background path
(`process_audit_request`) defaults it to 0, so one such vulnerability scores
90 (penalty 10); the /analyze handler defaults it to 2, so one such
vulnerability scores 94 (penalty 6).  Both pass (score ≥ 80). -/
theorem missing_severity_scoring_paths :
    (MainApi.bg_audit_score [{ severity_level_value := none }] = 90 ∧
      MainApi.bg_passed [{ severity_level_value := none }] = true) ∧
    ((MainApi.analyze_scoring [{ severity_level_value := none }]).audit_score = 94 ∧
      (MainApi.analyze_scoring [{ severity_level_value := none }]).passed = true) := by
  decide

/-- C4: on lists where every entry carries an integer `severity_level_value`,
the /analyze scoring step computes exactly the spec's formula
`max(0, min(100, 100 - Σ max(0, 5 - slv)·2))` with `passed = (score ≥ 80)`;
one value-3 vulnerability scores 96, the empty list scores 100 and passes,
and the score always lies in `[0, 100]`. -/
theorem analyze_scoring_formula (slvs : List Int) :
    (MainApi.analyze_scoring
        (slvs.map (fun n => { severity_level_value := some n }))).audit_score
      = MainApi.spec_audit_score slvs ∧
    (∀ vs : List MainApi.SVuln,
      (MainApi.analyze_scoring vs).passed
        = decide (80 ≤ (MainApi.analyze_scoring vs).audit_score) ∧
      0 ≤ (MainApi.analyze_scoring vs).audit_score ∧
      (MainApi.analyze_scoring vs).audit_score ≤ 100) ∧
    (MainApi.analyze_scoring [{ severity_level_value := some 3 }]).audit_score = 96 ∧
    (MainApi.analyze_scoring []).audit_score = 100 ∧
    (MainApi.analyze_scoring []).passed = true := by
  refine ⟨?_, fun vs => ⟨rfl, ?_, ?_⟩, by decide, by decide, by decide⟩
  · simp [MainApi.analyze_scoring, MainApi.fill_severity, MainApi.total_severity,
      MainApi.spec_audit_score, List.map_map, Function.comp_def]
  · exact le_max_left 0 _
  · exact max_le (by decide) (min_le_left _ _)

/-- C8: on an empty vulnerability list, `process_vulnerabilities` returns the
empty list immediately, issuing zero model calls — no workflow stage runs. -/
theorem process_vulnerabilities_empty (el fl tl : Vuln → String) (code : String) :
    LLMProcessor.process_vulnerabilities el fl tl [] code = ([], 0) := rfl

/-- C9: when enrichment raises on a non-empty vulnerability list, the
/analyze handler falls back to the unenriched list from the adapter, and the
whole scored response is the one computed from that list. -/
theorem analyze_handler_enrichment_fallback (vulns : List MainApi.SVuln)
    (msg : String) (h : vulns ≠ []) :
    MainApi.analyze_handler vulns (Except.error msg) = MainApi.analyze_scoring vulns := by
  cases vulns with
  | nil => exact absurd rfl h
  | cons v rest => rfl

/-- Witness for C9 on a one-element list. -/
theorem analyze_handler_enrichment_fallback_witness :
    ([({ severity_level_value := some 3 } : MainApi.SVuln)] ≠ []) ∧
    MainApi.analyze_handler [({ severity_level_value := some 3 } : MainApi.SVuln)]
        (Except.error ("model down"))
      = MainApi.analyze_scoring [{ severity_level_value := some 3 }] :=
  ⟨by decide,
    analyze_handler_enrichment_fallback [{ severity_level_value := some 3 }]
      ("model down") (by decide)⟩

/-- C10: in the background scoring loop, a present but non-numeric
`severity_level_value` (e.g. the string "3") fails the `isinstance` guard and
contributes zero penalty, while a missing key becomes the number 0 and
contributes the full 10-point penalty; a single non-numeric entry therefore
scores 100 and passes, and nothing raises (the embedded loop is total). -/
theorem bg_scoring_non_numeric :
    (∀ s : String,
      MainApi.bg_penalty { severity_level_value := some (MainApi.PyVal.str s) } = 0) ∧
    MainApi.bg_penalty { severity_level_value := none } = 10 ∧
    MainApi.bg_audit_score [{ severity_level_value := some (MainApi.PyVal.str ("3")) }] = 100 ∧
    MainApi.bg_passed [{ severity_level_value := some (MainApi.PyVal.str ("3")) }] = true ∧
    MainApi.bg_audit_score [{ severity_level_value := none }] = 90 := by
  exact ⟨fun s => rfl, by decide, by decide, by decide, by decide⟩

/-- C2 counterexample: when the external analyzer run is classified as
successful (here: clean exit with empty stdout, yielding the mock payload),
`loc` is taken from the parsed metrics with default 25, not from the original
source — a one-line source reports `loc = 25`. -/
theorem adapter_loc_counterexample :
    (SlitherAnalyzer.analyze_contract ("pragma solidity;")
        SlitherAnalyzer.SlitherOutcome.emptyOutput).contract_metrics.loc = 25 ∧
    (splitlinesCount ("pragma solidity;") : Int) = 1 ∧
    (SlitherAnalyzer.analyze_contract ("pragma solidity;")
        SlitherAnalyzer.SlitherOutcome.emptyOutput).contract_metrics.loc
      ≠ (splitlinesCount ("pragma solidity;") : Int) := by
  decide

/-- C2 (amended): `loc` equals the newline-delimited line count of the exact
original source precisely on the external failure modes (tool missing,
timeout, non-zero exit with empty stdout, unparseable output), i.e. whenever
`_run_slither` yields no payload; when a payload is parsed (including the
empty-stdout mock), `loc` is the payload's `metrics.nLines` with default 25,
independent of the source. -/
theorem adapter_loc_spec (source : String) (o : SlitherAnalyzer.SlitherOutcome) :
    (SlitherAnalyzer.run_slither o = none →
      (SlitherAnalyzer.analyze_contract source o).contract_metrics.loc
        = (splitlinesCount source : Int)) ∧
    (∀ raw, SlitherAnalyzer.run_slither o = some raw →
      (SlitherAnalyzer.analyze_contract source o).contract_metrics.loc
        = raw.metrics_nLines.getD 25) := by
  constructor
  · intro h
    unfold SlitherAnalyzer.analyze_contract
    rw [h]
  · intro raw h
    unfold SlitherAnalyzer.analyze_contract
    rw [h]
    rfl

/-- Witness for C2 (amended) on a two-line source under a timeout. -/
theorem adapter_loc_spec_witness :
    (SlitherAnalyzer.run_slither SlitherAnalyzer.SlitherOutcome.timeout = none) ∧
    (SlitherAnalyzer.analyze_contract ("contract A\n// x")
        SlitherAnalyzer.SlitherOutcome.timeout).contract_metrics.loc
      = (splitlinesCount ("contract A\n// x") : Int) :=
  ⟨rfl, (adapter_loc_spec ("contract A\n// x") SlitherAnalyzer.SlitherOutcome.timeout).1 rfl⟩

/-- C5: on every external failure mode (`_run_slither` yields no payload:
tool missing, timeout, non-zero exit with empty stdout, unparseable output),
the adapter still returns a result — totality is by construction of the
embedding, mirroring the catch-all handler in the source — whose vulnerability
list is exactly the domain-check findings for the source, with best-effort
metrics (default complexity 5, locally counted `loc`). -/
theorem adapter_failure_degrades (source : String) (o : SlitherAnalyzer.SlitherOutcome)
    (h : SlitherAnalyzer.run_slither o = none) :
    (SlitherAnalyzer.analyze_contract source o).vulnerabilities
      = SlitherAnalyzer.check_hedera_specific source ∧
    (SlitherAnalyzer.analyze_contract source o).contract_metrics
      = { complexity := 5, loc := (splitlinesCount source : Int) } := by
  unfold SlitherAnalyzer.analyze_contract
  rw [h]
  exact ⟨rfl, rfl⟩

/-- Witness for C5: malformed analyzer output on a payable contract without
value validation still yields the domain-check findings. -/
theorem adapter_failure_degrades_witness :
    (SlitherAnalyzer.run_slither SlitherAnalyzer.SlitherOutcome.badJson = none) ∧
    (SlitherAnalyzer.analyze_contract ("payable fallback")
        SlitherAnalyzer.SlitherOutcome.badJson).vulnerabilities
      = SlitherAnalyzer.check_hedera_specific ("payable fallback") :=
  ⟨rfl,
    (adapter_failure_degrades ("payable fallback")
      SlitherAnalyzer.SlitherOutcome.badJson rfl).1⟩

/-- Membership helper: every vulnerability built from the detector loop is
`detector_to_vuln k d` for some position `k` and raw detector `d`. -/
theorem build_vulns_mem {v : Vuln} :
    ∀ (n : Nat) (ds : List SlitherAnalyzer.RawDetector),
      v ∈ SlitherAnalyzer.build_vulns n ds →
      ∃ d : SlitherAnalyzer.RawDetector, ∃ k : Nat,
        v = SlitherAnalyzer.detector_to_vuln k d := by
  intro n ds
  induction ds generalizing n with
  | nil => intro h; simp [SlitherAnalyzer.build_vulns] at h
  | cons d rest ih =>
      intro h
      rcases List.mem_cons.mp h with h1 | h2
      · exact ⟨d, n, h1⟩
      · exact ih (n + 1) h2

/-- Membership helper: a domain-check finding is one of the three fixed
HED records. -/
theorem check_hedera_mem {c : String} {v : Vuln}
    (h : v ∈ SlitherAnalyzer.check_hedera_specific c) :
    v = SlitherAnalyzer.hed001 ∨ v = SlitherAnalyzer.hed002 ∨ v = SlitherAnalyzer.hed003 := by
  unfold SlitherAnalyzer.check_hedera_specific at h
  rcases List.mem_append.mp h with h1 | h2
  · rcases List.mem_append.mp h1 with ha | hb
    · left
      split at ha
      · simpa using ha
      · simp at ha
    · right; left
      split at hb
      · simpa using hb
      · simp at hb
  · right; right
    split at h2
    · simpa using h2
    · simp at h2

/-- Membership helper: every vulnerability in the adapter's output is either
built from a raw detector or one of the domain-check findings. -/
theorem analyze_contract_mem {source : String} {o : SlitherAnalyzer.SlitherOutcome}
    {v : Vuln} (h : v ∈ (SlitherAnalyzer.analyze_contract source o).vulnerabilities) :
    (∃ d : SlitherAnalyzer.RawDetector, ∃ k : Nat,
      v = SlitherAnalyzer.detector_to_vuln k d) ∨
    v ∈ SlitherAnalyzer.check_hedera_specific source := by
  unfold SlitherAnalyzer.analyze_contract at h
  cases ho : SlitherAnalyzer.run_slither o with
  | none =>
      rw [ho] at h
      exact Or.inr h
  | some raw =>
      rw [ho] at h
      rcases List.mem_append.mp h with h1 | h2
      · exact Or.inl (build_vulns_mem 0 _ h1)
      · exact Or.inr h2

/-- C3 counterexample: a detector with impact `High` is stored with
`severity = "high"` (lowercased, not title case) and
`severity_level_value = 3`, while the case-sensitive §4.1 mapping applied to
the stored severity field gives 0, not 3 — the same mismatch holds for the
appended domain-check finding (`"medium"`, value 2). -/
theorem severity_invariant_counterexample :
    ((SlitherAnalyzer.analyze_contract ("")
        (SlitherAnalyzer.SlitherOutcome.parsed
          { success_and_results := true
            results_detectors :=
              [{ check := some ("reentrancy-eth")
                 description := some ("Reentrancy in withdraw")
                 impact := some ("High")
                 elements := []
                 cwe := [] }]
            top_detectors := []
            metrics_complexity := none
            metrics_nLines := none })).vulnerabilities.map
        (fun v => (v.severity, v.severity_level_value)))
      = [("high", 3), ("medium", 2)] ∧
    SlitherAnalyzer.severity_to_value ("high") = 0 ∧
    SlitherAnalyzer.severity_to_value ("medium") = 0 := by
  decide

/-- C3 (amended): every vulnerability the adapter emits is either built from
a raw detector — and then its `severity_level_value` is the §4.1 mapping
applied to the raw impact string (default `Medium`) *before* lowercasing,
while the stored `severity` is that raw label's lowercase form — or one of
the three fixed domain-check records, whose value is the mapping of the
title-case label (`Medium`→2, `High`→3) and whose stored `severity` is that
label's lowercase form (`"medium"` / `"high"`), never the title-case display
form and never the result of mapping the already-lowercased field. -/
theorem severity_invariant_amended (source : String)
    (o : SlitherAnalyzer.SlitherOutcome) (v : Vuln)
    (h : v ∈ (SlitherAnalyzer.analyze_contract source o).vulnerabilities) :
    (∃ d : SlitherAnalyzer.RawDetector, ∃ k : Nat,
        v = SlitherAnalyzer.detector_to_vuln k d ∧
        v.severity_level_value
          = SlitherAnalyzer.severity_to_value (d.impact.getD ("Medium")) ∧
        v.severity = strToLower (d.impact.getD ("Medium"))) ∨
    ((v = SlitherAnalyzer.hed001 ∨ v = SlitherAnalyzer.hed003) ∧
        v.severity = "medium" ∧
        v.severity_level_value = 2 ∧
        v.severity_level_value = SlitherAnalyzer.severity_to_value ("Medium") ∧
        v.severity = strToLower ("Medium")) ∨
    (v = SlitherAnalyzer.hed002 ∧
        v.severity = "high" ∧
        v.severity_level_value = 3 ∧
        v.severity_level_value = SlitherAnalyzer.severity_to_value ("High") ∧
        v.severity = strToLower ("High")) := by
  rcases analyze_contract_mem h with ⟨d, k, rfl⟩ | hc
  · exact Or.inl ⟨d, k, rfl, rfl, rfl⟩
  · rcases check_hedera_mem hc with rfl | rfl | rfl
    · exact Or.inr (Or.inl ⟨Or.inl rfl, by decide, by decide, by decide, by decide⟩)
    · exact Or.inr (Or.inr ⟨rfl, by decide, by decide, by decide, by decide⟩)
    · exact Or.inr (Or.inl ⟨Or.inr rfl, by decide, by decide, by decide, by decide⟩)

/-- Witness for C3 (amended) at the discriminating input: a parsed payload
whose detector has impact `High` (and a source firing no domain check), so
the emitted vulnerability carries value 3 = f(raw `High`) with stored
severity `"high"`. -/
theorem severity_invariant_amended_witness :
    (SlitherAnalyzer.detector_to_vuln 0 high_detector
      ∈ (SlitherAnalyzer.analyze_contract ("associateToken")
          (SlitherAnalyzer.SlitherOutcome.parsed high_payload)).vulnerabilities) ∧
    ((∃ d : SlitherAnalyzer.RawDetector, ∃ k : Nat,
        SlitherAnalyzer.detector_to_vuln 0 high_detector
          = SlitherAnalyzer.detector_to_vuln k d ∧
        (SlitherAnalyzer.detector_to_vuln 0 high_detector).severity_level_value
          = SlitherAnalyzer.severity_to_value (d.impact.getD ("Medium")) ∧
        (SlitherAnalyzer.detector_to_vuln 0 high_detector).severity
          = strToLower (d.impact.getD ("Medium"))) ∨
    (((SlitherAnalyzer.detector_to_vuln 0 high_detector) = SlitherAnalyzer.hed001 ∨
        (SlitherAnalyzer.detector_to_vuln 0 high_detector) = SlitherAnalyzer.hed003) ∧
        (SlitherAnalyzer.detector_to_vuln 0 high_detector).severity = "medium" ∧
        (SlitherAnalyzer.detector_to_vuln 0 high_detector).severity_level_value = 2 ∧
        (SlitherAnalyzer.detector_to_vuln 0 high_detector).severity_level_value
          = SlitherAnalyzer.severity_to_value ("Medium") ∧
        (SlitherAnalyzer.detector_to_vuln 0 high_detector).severity
          = strToLower ("Medium")) ∨
    ((SlitherAnalyzer.detector_to_vuln 0 high_detector) = SlitherAnalyzer.hed002 ∧
        (SlitherAnalyzer.detector_to_vuln 0 high_detector).severity = "high" ∧
        (SlitherAnalyzer.detector_to_vuln 0 high_detector).severity_level_value = 3 ∧
        (SlitherAnalyzer.detector_to_vuln 0 high_detector).severity_level_value
          = SlitherAnalyzer.severity_to_value ("High") ∧
        (SlitherAnalyzer.detector_to_vuln 0 high_detector).severity
          = strToLower ("High"))) :=
  ⟨by decide,
    severity_invariant_amended ("associateToken")
      (SlitherAnalyzer.SlitherOutcome.parsed high_payload)
      (SlitherAnalyzer.detector_to_vuln 0 high_detector) (by decide)⟩

/-- C7: the compile stage returns exactly as many entries as input
vulnerabilities, in input order; entry `i` keeps all original fields of
vulnerability `i` and carries the text of the *first* explanation / fix /
test case whose id matches (so a duplicated id resolves to the first match),
`none` (null) when no id matches. -/
theorem compile_results_spec (vulns : List Vuln)
    (es fs ts : List LLMProcessor.IdText) :
    (LLMProcessor.compile_results vulns es fs ts).length = vulns.length ∧
    ∀ (i : Nat) (h1 : i < vulns.length)
      (h2 : i < (LLMProcessor.compile_results vulns es fs ts).length),
      (LLMProcessor.compile_results vulns es fs ts).get ⟨i, h2⟩ =
        { base := vulns.get ⟨i, h1⟩
          explanation :=
            (es.find? (fun e => e.id = (vulns.get ⟨i, h1⟩).id)).map LLMProcessor.IdText.text
          fixed_code :=
            (fs.find? (fun f => f.id = (vulns.get ⟨i, h1⟩).id)).map LLMProcessor.IdText.text
          test_case :=
            (ts.find? (fun t => t.id = (vulns.get ⟨i, h1⟩).id)).map LLMProcessor.IdText.text } := by
  constructor
  · simp [LLMProcessor.compile_results]
  · intro i h1 h2
    simp [LLMProcessor.compile_results, List.get_eq_getElem, List.getElem_map]

/-- Witness for C7 on one vulnerability with a matching explanation, a
duplicated-id explanation list, and empty fix/test lists. -/
theorem compile_results_spec_witness :
    (0 < ([SlitherAnalyzer.hed001] : List Vuln).length) ∧
    (LLMProcessor.compile_results [SlitherAnalyzer.hed001]
        [⟨"HED-001", "first"⟩, ⟨"HED-001", "second"⟩] [] []).get ⟨0, by decide⟩ =
      { base := ([SlitherAnalyzer.hed001] : List Vuln).get ⟨0, by decide⟩
        explanation := some ("first")
        fixed_code := none
        test_case := none } :=
  ⟨by decide, by
    simpa using
      (compile_results_spec [SlitherAnalyzer.hed001]
        [⟨"HED-001", "first"⟩, ⟨"HED-001", "second"⟩] [] []).2 0 (by decide) (by decide)⟩
